import Mathlib

/-!
Shallow embedding of the reconciliation core of `src/frontend/script.js`
(HyperHomo frontend) together with the contract constants of
`contracts.js`.  External collaborators (the wallet provider, the chain,
and the FHE ledger server) are modelled as explicit environment records
whose fields give the outcome of each external call, and every function
of interest is translated into a pure Lean function from its environment
to a record of the requests it issued, the status updates it emitted,
and its return value.
-/

namespace HyperHomo

/-- Status levels passed to `updateDepositStatus(message, status)`. -/
inductive Status where
  | pending
  | success
  | error
  | warning
deriving DecidableEq, Repr

/-- One `updateDepositStatus` call: the message text and the status level. -/
abbrev StatusUpdate := String × Status

/-! ### Contract constants (`contracts.js`) -/

/-- `USDC_CONTRACT.decimals` in `contracts.js`. -/
def usdcDecimals : Nat := 6

/-- `ethers.parseUnits('1', USDC_CONTRACT.decimals)` — the fixed minimum
allowance tested by `checkUsdcAllowance` ("At least 1 USDC"). -/
def minAllowance : Nat := 10 ^ usdcDecimals

/-- `ethers.parseUnits('1000000', USDC_CONTRACT.decimals)` — the
"effectively unlimited" amount approved by `approveUsdc`. -/
def approveCeiling : Nat := 1000000 * 10 ^ usdcDecimals

/-- The chain parameters handed to `wallet_addEthereumChain`. -/
structure ChainParams where
  chainId : Nat
  chainName : String
  rpcUrl : String
  blockExplorerUrl : String
  nativeCurrencyName : String
  nativeCurrencySymbol : String
  nativeCurrencyDecimals : Nat
deriving DecidableEq, Repr

/-- `HYPERLIQUID_NETWORK` in `contracts.js`. -/
def hyperliquidNetwork : ChainParams :=
  { chainId := 998
    chainName := "Hyperliquid Testnet"
    rpcUrl := "https://rpc.hyperliquid-testnet.xyz/evm"
    blockExplorerUrl := "https://explorer.hyperliquid.xyz"
    nativeCurrencyName := "Hyper"
    nativeCurrencySymbol := "HYPE"
    nativeCurrencyDecimals := 18 }

/-! ### NetworkGuard: `checkAndSwitchNetwork` -/

/-- Outcome of the `wallet_switchEthereumChain` request.  `unknownChain`
is the rejection whose `code` is `4902`; `otherError` is any other
rejection (in particular the user declining the prompt). -/
inductive SwitchOutcome where
  | ok
  | unknownChain
  | otherError
deriving DecidableEq, Repr

/-- Outcome of the `wallet_addEthereumChain` request. -/
inductive AddOutcome where
  | ok
  | err
deriving DecidableEq, Repr

/-- Environment of one `checkAndSwitchNetwork()` run: presence of
`window.ethereum`, the result of the `eth_chainId` read, and the wallet's
responses to the switch / add prompts. -/
structure NetworkEnv where
  hasProvider : Bool
  chainIdReadOk : Bool
  currentChainId : Nat
  switchOutcome : SwitchOutcome
  addOutcome : AddOutcome
deriving DecidableEq, Repr

/-- Observable result of `checkAndSwitchNetwork()`: its boolean return,
how many `wallet_switchEthereumChain` requests it issued, and the
parameter record of each `wallet_addEthereumChain` request it issued. -/
structure NetworkResult where
  ok : Bool
  switchRequests : Nat
  addRequests : List ChainParams
deriving DecidableEq, Repr

/-- `checkAndSwitchNetwork` (script.js lines 253-299).  Returns false with
no requests when `window.ethereum` is absent or `eth_chainId` fails; true
with no requests when already on chain 998; otherwise issues one switch
request, and on error code 4902 one add request carrying the
`HYPERLIQUID_NETWORK` parameters.  Note that after a successful add the
source returns `true` directly: it does not issue a second switch
request. -/
def checkAndSwitchNetwork (env : NetworkEnv) : NetworkResult :=
  if env.hasProvider = false then ⟨false, 0, []⟩
  else if env.chainIdReadOk = false then ⟨false, 0, []⟩
  else if env.currentChainId ≠ hyperliquidNetwork.chainId then
    match env.switchOutcome with
    | .ok => ⟨true, 1, []⟩
    | .unknownChain =>
      match env.addOutcome with
      | .ok => ⟨true, 1, [hyperliquidNetwork]⟩
      | .err => ⟨false, 1, [hyperliquidNetwork]⟩
    | .otherError => ⟨false, 1, []⟩
  else ⟨true, 0, []⟩

/-! ### WalletSession state (globals of script.js) -/

/-- The module-level mutable state of script.js: `provider`, `signer`,
`currentAccount`, `isWalletConnected`, `usdcContract`, `vaultContract`,
`isUsdcApproved`.  Provider / signer / contract instances are abstracted
by numeric identities, which is enough to observe whether they are
replaced, cleared or kept. -/
structure WalletState where
  provider : Option Nat
  signer : Option Nat
  currentAccount : Option String
  isWalletConnected : Bool
  usdcContract : Option Nat
  vaultContract : Option Nat
  isUsdcApproved : Bool
deriving DecidableEq, Repr

/-- `updateWalletUI(connected)`: besides DOM work it assigns
`isWalletConnected = connected` and touches no other global. -/
def updateWalletUI (connected : Bool) (s : WalletState) : WalletState :=
  { s with isWalletConnected := connected }

/-- `disconnectWallet` (script.js lines 771-779): nulls `currentAccount`,
`isWalletConnected`, `provider`, `signer`, then calls
`updateWalletUI(false)`.  The contract instances and `isUsdcApproved`
are not assigned. -/
def disconnectWallet (s : WalletState) : WalletState :=
  updateWalletUI false
    { s with currentAccount := none
             isWalletConnected := false
             provider := none
             signer := none }

/-- `checkUsdcAllowance` (script.js lines 329-363) reduced to its
decision: the chain-read allowance (in USDC base units) is compared with
`parseUnits('1', decimals)`.  (The string-comparison fallback branch is
dead for the decimal strings `BigInt` accepts, and a read failure
returns false; the read value is supplied by the environment.) -/
def checkUsdcAllowance (allowance : Nat) : Bool :=
  minAllowance ≤ allowance

/-- Environment of one account-info refresh chain
(`getAccountInfo` → `updateBalances` → `checkUsdcAllowance`):
whether the awaited steps of `getAccountInfo` before the
`updateBalances()` call resolve (`provider.getBalance` being the first
and typical failure point — a rejection is caught at script.js line
936 and skips `updateBalances`), whether the `usdcContract.allowance`
read resolves, and the allowance it reports for the current account. -/
structure RefreshEnv where
  balanceReadOk : Bool
  allowanceReadOk : Bool
  allowance : Nat
deriving DecidableEq, Repr

/-- The stateful `checkUsdcAllowance()` (script.js lines 329-363): it
returns false without touching the globals when the USDC contract or
the account is missing or the allowance read fails, and otherwise
ASSIGNS the global `isUsdcApproved` (line 348) from the current
account's allowance before returning it. -/
def checkUsdcAllowanceState (env : RefreshEnv) (s : WalletState) : WalletState × Bool :=
  if s.usdcContract = none then (s, false)
  else if s.currentAccount = none then (s, false)
  else if env.allowanceReadOk = false then (s, false)
  else ({ s with isUsdcApproved := checkUsdcAllowance env.allowance },
        checkUsdcAllowance env.allowance)

/-- `updateBalances` (script.js lines 569-622): returns early when the
session is not connected; its balance reads and DOM updates touch none
of the modelled globals except through the `checkUsdcAllowance()` call
of line 613 (whose own failure is caught at line 614). -/
def updateBalances (env : RefreshEnv) (s : WalletState) : WalletState :=
  if s.isWalletConnected = false then s
  else if s.currentAccount = none then s
  else (checkUsdcAllowanceState env s).1

/-- `getAccountInfo` (script.js lines 818-939): returns early when the
session is not connected; a null provider or a rejected
`provider.getBalance` (or any other failure of the awaited steps
before line 935) lands in the catch of line 936 and skips
`updateBalances()`; otherwise `updateBalances()` runs.  Its other
work (PnL and ledger fetches, `loadUserTrades`) is wrapped in
swallowing try/catch blocks and writes none of the modelled
globals. -/
def getAccountInfo (env : RefreshEnv) (s : WalletState) : WalletState :=
  if s.isWalletConnected = false then s
  else if s.currentAccount = none then s
  else if s.provider = none then s
  else if env.balanceReadOk = false then s
  else updateBalances env s

/-- `handleAccountsChanged(accounts)` (script.js lines 756-768): empty
list disconnects; a first account different from `currentAccount` is
written to `currentAccount`, then `updateWalletUI(true)` runs and
`getAccountInfo()` is awaited — whose `updateBalances` →
`checkUsdcAllowance` chain may reassign the global `isUsdcApproved`
from the new account's allowance; otherwise no-op. -/
def handleAccountsChanged (accounts : List String) (env : RefreshEnv)
    (s : WalletState) : WalletState :=
  match accounts with
  | [] => disconnectWallet s
  | a :: _ =>
    if some a ≠ s.currentAccount then
      getAccountInfo env (updateWalletUI true { s with currentAccount := some a })
    else s

/-- The record returned by `signMessage`: the message, the identity of
the signer object whose `signMessage` produced the signature, and the
`address` field (read from `currentAccount`). -/
structure SignedMessage where
  message : String
  signerUsed : Nat
  address : Option String
deriving DecidableEq, Repr

/-- `signMessage(message)` (script.js lines 629-646): throws (`none`)
unless `isWalletConnected` and `signer` are set; otherwise signs with the
current `signer` object and reports `currentAccount` as the address. -/
def signMessage (s : WalletState) (message : String) : Option SignedMessage :=
  match s.signer, s.isWalletConnected with
  | some sg, true => some { message := message, signerUsed := sg, address := s.currentAccount }
  | _, _ => none

/-! ### WalletSession: `connectWallet` -/

/-- Environment of one `connectWallet()` run.  `net` is the environment
seen by the inner `checkAndSwitchNetwork()` call; its `hasProvider`
field is the same `window.ethereum` presence the outer check reads.
`requestAccountsOk` is whether `eth_requestAccounts` resolves (false =
the user declines), and `getSignerOk` whether `provider.getSigner()`
resolves. -/
structure ConnectEnv where
  net : NetworkEnv
  requestAccountsOk : Bool
  getSignerOk : Bool
deriving DecidableEq, Repr

/-- Observable result of `connectWallet()`: the boolean return, the
number of `eth_requestAccounts` requests issued, and the result of the
network guard (`none` when `checkAndSwitchNetwork` was never reached). -/
structure ConnectResult where
  ok : Bool
  requestAccountsCalls : Nat
  networkGuard : Option Bool
deriving DecidableEq, Repr

/-- `connectWallet` (script.js lines 649-753).  Without `window.ethereum`
it alerts and returns false.  Otherwise it first runs
`checkAndSwitchNetwork()`; on guard failure it alerts and returns false
before any `eth_requestAccounts`.  Only after the guard succeeds does it
request account access; a rejection there (or in `getSigner`) is caught
by the outer catch, which returns false.  The remainder of the function
(ledger account check / creation, info refreshes, event subscriptions)
wraps its fallible steps in swallowing try/catch blocks and issues no
further `eth_requestAccounts`, so on success the function returns
true. -/
def connectWallet (env : ConnectEnv) : ConnectResult :=
  if env.net.hasProvider = false then ⟨false, 0, none⟩
  else
    let g := checkAndSwitchNetwork env.net
    if g.ok = false then ⟨false, 0, some false⟩
    else if env.requestAccountsOk = false then ⟨false, 1, some true⟩
    else if env.getSignerOk = false then ⟨false, 1, some true⟩
    else ⟨true, 1, some true⟩

/-! ### VaultDepositCoordinator: `depositUsdc` and its helpers -/

/-- Outcome of one `fetch` to the FHE ledger server: the response was ok,
or the response arrived with `ok = false` and the given body text, or the
fetch itself rejected (network error). -/
inductive FetchOutcome where
  | ok
  | httpError (body : String)
  | networkError (msg : String)
deriving DecidableEq, Repr

/-- Whether the outcome is an ok response. -/
def FetchOutcome.isOk : FetchOutcome → Bool
  | .ok => true
  | _ => false

/-- Whether `pat` occurs as a contiguous run inside the list. -/
def hasInfix (pat : List Char) : List Char → Bool
  | [] => pat.isEmpty
  | c :: cs => if pat.isPrefixOf (c :: cs) then true else hasInfix pat cs

/-- `errorText.includes('not found')` — the text-protocol signal by
which the missing-account error is recognised. -/
def containsNotFound (s : String) : Bool :=
  hasInfix ['n', 'o', 't', ' ', 'f', 'o', 'u', 'n', 'd'] s.toList

/-- Whether a ledger-deposit outcome is an HTTP error whose body contains
`"not found"`. -/
def notFoundOutcome : FetchOutcome → Bool
  | .httpError body => containsNotFound body
  | _ => false

/-- Environment of one `depositUsdc(amount)` run.  `allowance` is the
allowance the chain reports before any approval.  The two transactions
each have a submission step (the wallet accepting `approve` /
`deposit`) and a mining step (`tx.wait()`); `approveErrMsg` and
`depositErrMsg` are the `error.message` texts of a failing step.  The
three `FetchOutcome` fields are the ledger server's responses to the
first `/deposit`, to `/create_account`, and to the retried `/deposit`
(each read only if the corresponding request is issued).  A successful
approval sets the chain allowance to `approveCeiling` (ERC-20
`approve(spender, maxAmount)` semantics). -/
structure DepositEnv where
  allowance : Nat
  approveSubmitOk : Bool
  approveMineOk : Bool
  approveErrMsg : String
  depositSubmitOk : Bool
  depositMineOk : Bool
  depositErrMsg : String
  ledgerDeposit1 : FetchOutcome
  createAccount : FetchOutcome
  ledgerDeposit2 : FetchOutcome
deriving DecidableEq, Repr

/-- Observable result of one `depositUsdc(amount)` run. -/
structure DepositResult where
  /-- number of `usdcContract.approve` transaction requests issued -/
  approveTxCount : Nat
  /-- number of `vaultContract.deposit` transaction requests issued -/
  depositTxCount : Nat
  /-- the chain allowance at the moment `vaultContract.deposit` is
  invoked (`none` when it never is) -/
  allowanceAtDeposit : Option Nat
  /-- the base-unit amount passed to `vaultContract.deposit` (`none`
  when it is never invoked) -/
  depositAmountWei : Option Nat
  /-- number of POST `/deposit` requests issued to the ledger server -/
  ledgerDepositCount : Nat
  /-- number of POST `/create_account` requests issued -/
  createAccountCount : Nat
  /-- the `updateDepositStatus` calls, in order -/
  statuses : List StatusUpdate
  /-- the function returned `true` (as opposed to throwing) -/
  returnedTrue : Bool
deriving DecidableEq, Repr

/-- The warning text of script.js line 533. -/
def fheWarningMsg : String :=
  "Deposit successful on blockchain, but FHE server update failed. Some features may be limited."

/-- The ledger-sync phase of `depositUsdc` (script.js lines 470-534),
i.e. the body of the inner try whose catch shows `fheWarningMsg`.
Returns (number of `/deposit` posts, number of `/create_account` posts,
whether the phase completed without throwing).  On a first `/deposit`
failure whose body contains "not found" it posts `/create_account`
once and, only if that response is ok, retries `/deposit` exactly once;
every other failure (and a failing retry) throws into the catch. -/
def ledgerSync (env : DepositEnv) : Nat × Nat × Bool :=
  match env.ledgerDeposit1 with
  | .ok => (1, 0, true)
  | .networkError _ => (1, 0, false)
  | .httpError body =>
    if containsNotFound body then
      match env.createAccount with
      | .ok =>
        match env.ledgerDeposit2 with
        | .ok => (2, 1, true)
        | _ => (2, 1, false)
      | _ => (1, 1, false)
    else (1, 0, false)

/-- The part of `depositUsdc` from the amount conversion onward
(script.js lines 441-547), parameterised by the approval phase's
outcome: the chain allowance in force when the deposit transaction is
submitted, the number of approve transactions already issued, and the
status updates already emitted.  After a throwing submission or mining
step the outer catch emits the error status; after a mined deposit the
ledger-sync phase runs, its catch emits the warning, and then —
unconditionally — line 537 emits the success status and the function
returns true. -/
def depositPhase (amountWei allowanceNow approveCount : Nat) (pre : List StatusUpdate)
    (env : DepositEnv) : DepositResult :=
  if env.depositSubmitOk = false then
    { approveTxCount := approveCount
      depositTxCount := 1
      allowanceAtDeposit := some allowanceNow
      depositAmountWei := some amountWei
      ledgerDepositCount := 0
      createAccountCount := 0
      statuses := pre ++ [("Depositing USDC...", .pending),
        ("Error depositing USDC: " ++ env.depositErrMsg, .error)]
      returnedTrue := false }
  else if env.depositMineOk = false then
    { approveTxCount := approveCount
      depositTxCount := 1
      allowanceAtDeposit := some allowanceNow
      depositAmountWei := some amountWei
      ledgerDepositCount := 0
      createAccountCount := 0
      statuses := pre ++ [("Depositing USDC...", .pending),
        ("Waiting for deposit transaction...", .pending),
        ("Error depositing USDC: " ++ env.depositErrMsg, .error)]
      returnedTrue := false }
  else
    let r := ledgerSync env
    { approveTxCount := approveCount
      depositTxCount := 1
      allowanceAtDeposit := some allowanceNow
      depositAmountWei := some amountWei
      ledgerDepositCount := r.1
      createAccountCount := r.2.1
      statuses := pre ++ [("Depositing USDC...", .pending),
        ("Waiting for deposit transaction...", .pending),
        ("Updating FHE server...", .pending)]
        ++ (if r.2.2 then [] else [(fheWarningMsg, .warning)])
        ++ [("USDC deposited successfully!", .success)]
      returnedTrue := true }

/-- `depositUsdc(amount)` (script.js lines 423-548), for a connected
session with initialised contracts.  `amountWei` is
`parseUnits(amount, decimals)`, the deposited amount in base units.
First `checkUsdcAllowance()`; when it is false, `approveUsdc()`
(script.js lines 366-420) runs: its failure at either step emits the
approval error status, rethrows, and the outer catch emits the deposit
error status; its success emits the approval statuses, sets the chain
allowance to `approveCeiling`, and the re-check
`checkUsdcAllowance(approveCeiling)` passes.  Then the deposit phase
runs. -/
def depositUsdc (amountWei : Nat) (env : DepositEnv) : DepositResult :=
  if checkUsdcAllowance env.allowance then
    depositPhase amountWei env.allowance 0 [] env
  else if env.approveSubmitOk = false then
    { approveTxCount := 1
      depositTxCount := 0
      allowanceAtDeposit := none
      depositAmountWei := none
      ledgerDepositCount := 0
      createAccountCount := 0
      statuses := [("Approving USDC...", .pending),
        ("Error approving USDC: " ++ env.approveErrMsg, .error),
        ("Error depositing USDC: " ++ env.approveErrMsg, .error)]
      returnedTrue := false }
  else if env.approveMineOk = false then
    { approveTxCount := 1
      depositTxCount := 0
      allowanceAtDeposit := none
      depositAmountWei := none
      ledgerDepositCount := 0
      createAccountCount := 0
      statuses := [("Approving USDC...", .pending),
        ("Waiting for approval transaction...", .pending),
        ("Error approving USDC: " ++ env.approveErrMsg, .error),
        ("Error depositing USDC: " ++ env.approveErrMsg, .error)]
      returnedTrue := false }
  else
    depositPhase amountWei approveCeiling 1
      [("Approving USDC...", .pending),
       ("Waiting for approval transaction...", .pending),
       ("USDC approved successfully!", .success)] env

/-! ### JavaScript numbers and the numeric string builtins

`handleInvestmentSubmit` validates its two form fields with
`parseFloat`, `Number`, `isNaN`, comparisons and `Math.floor`.  We model
a JavaScript number as NaN, one of the two infinities, or an exact
rational; the rational idealises the IEEE-754 double at the magnitudes
and precisions these fields carry, where conversion and `Math.floor`
are exact. -/

/-- An exact scaled decimal: the value `num / 10 ^ exp`.  The numeric
strings these form fields carry are decimal literals, whose values are
exactly representable this way; no rounding is modelled. -/
structure Decimal where
  num : Int
  exp : Nat
deriving DecidableEq, Repr

/-- The rational value a `Decimal` denotes. -/
def Decimal.toRat (d : Decimal) : ℚ :=
  (d.num : ℚ) / 10 ^ d.exp

/-- A JavaScript number. -/
inductive JSNum where
  | nan
  | inf
  | negInf
  | num (d : Decimal)
deriving DecidableEq, Repr

/-- JavaScript `isNaN`. -/
def JSNum.isNaN : JSNum → Bool
  | .nan => true
  | _ => false

/-- JavaScript `x <= 0` (false for NaN and for +Infinity; for a finite
value `num / 10 ^ exp` the sign is that of `num`). -/
def JSNum.leZero : JSNum → Bool
  | .nan => false
  | .inf => false
  | .negInf => true
  | .num d => d.num ≤ 0

/-- JavaScript `Math.floor` (`Int.fdiv` rounds toward negative
infinity, as `Math.floor` does). -/
def JSNum.floor : JSNum → JSNum
  | .nan => .nan
  | .inf => .inf
  | .negInf => .negInf
  | .num d => .num ⟨d.num.fdiv ((10 : Int) ^ d.exp), 0⟩

/-- Whether the number is finite. -/
def JSNum.isFinite : JSNum → Bool
  | .num _ => true
  | _ => false

/-- Longest leading run of decimal digits: value, digit count, rest. -/
def readDigitsAux (acc n : Nat) : List Char → Nat × Nat × List Char
  | [] => (acc, n, [])
  | c :: cs =>
    if c.isDigit then readDigitsAux (acc * 10 + (c.toNat - 48)) (n + 1) cs
    else (acc, n, c :: cs)

/-- Drop leading whitespace. -/
def skipWs : List Char → List Char
  | [] => []
  | c :: cs => if c.isWhitespace then skipWs cs else c :: cs

/-- Drop whitespace at both ends. -/
def trimWs (l : List Char) : List Char :=
  ((skipWs ((skipWs l).reverse)).reverse)

/-- Apply the signed power of ten of an exponent part to a mantissa:
a non-negative exponent scales the numerator, a negative one deepens
the denominator. -/
def applyExp (d : Decimal) (e : Int) : Decimal :=
  if 0 ≤ e then ⟨d.num * 10 ^ e.toNat, d.exp⟩ else ⟨d.num, d.exp + (-e).toNat⟩

/-- Parse an exponent part `e`/`E`, optional sign, digits.  When no
digit follows the marker the part is not consumed (longest valid
prefix), mirroring ECMA-262 DecimalLiteral. -/
def readExponent (mant : Decimal) (marker : Char) (cs : List Char) : Decimal × List Char :=
  let sgn : Int × List Char :=
    match cs with
    | '-' :: t => (-1, t)
    | '+' :: t => (1, t)
    | t => (1, t)
  let d := readDigitsAux 0 0 sgn.2
  if d.2.1 = 0 then (mant, marker :: cs)
  else (applyExp mant (sgn.1 * (d.1 : Int)), d.2.2)

/-- Parse an unsigned ECMA-262 decimal literal (digits, optional dot,
optional exponent) off the front of the list: its exact value and the
unconsumed rest, or `none` when no digit is present before the
exponent marker.  Integer part `i`, fractional digits `f` of width
`nf` denote `(i * 10 ^ nf + f) / 10 ^ nf`. -/
def readDecimalLiteral (l : List Char) : Option (Decimal × List Char) :=
  let ip := readDigitsAux 0 0 l
  let fp : Nat × Nat × List Char :=
    match ip.2.2 with
    | '.' :: cs => readDigitsAux 0 0 cs
    | _ => (0, 0, ip.2.2)
  let consumedDot : Bool :=
    match ip.2.2 with
    | '.' :: _ => true
    | _ => false
  if ip.2.1 + fp.2.1 = 0 then none
  else
    let rest := if consumedDot then fp.2.2 else ip.2.2
    let mant : Decimal := ⟨(ip.1 * 10 ^ fp.2.1 + fp.1 : Nat), fp.2.1⟩
    match rest with
    | 'e' :: cs => some (readExponent mant 'e' cs)
    | 'E' :: cs => some (readExponent mant 'E' cs)
    | r => some (mant, r)

/-- The character list of the literal `Infinity`. -/
def infinityChars : List Char := ['I', 'n', 'f', 'i', 'n', 'i', 't', 'y']

/-- JavaScript `parseFloat`: skip leading whitespace, optional sign,
then the longest prefix that is `Infinity` or a decimal literal; NaN
when there is none.  Trailing garbage is ignored. -/
def jsParseFloat (s : String) : JSNum :=
  let l := skipWs s.toList
  let sp : Bool × List Char :=
    match l with
    | '-' :: t => (true, t)
    | '+' :: t => (false, t)
    | t => (false, t)
  if infinityChars.isPrefixOf sp.2 then (if sp.1 then .negInf else .inf)
  else
    match readDecimalLiteral sp.2 with
    | none => .nan
    | some (d, _) => .num (if sp.1 then ⟨-d.num, d.exp⟩ else d)

/-- Value of a hexadecimal digit. -/
def hexVal (c : Char) : Option Nat :=
  if c.isDigit then some (c.toNat - 48)
  else if 'a' ≤ c ∧ c ≤ 'f' then some (c.toNat - 87)
  else if 'A' ≤ c ∧ c ≤ 'F' then some (c.toNat - 55)
  else none

/-- Read a whole list as digits of the given radix. -/
def readRadixAux (radix acc : Nat) : List Char → Option Nat
  | [] => some acc
  | c :: cs =>
    match hexVal c with
    | some v => if v < radix then readRadixAux radix (acc * radix + v) cs else none
    | none => none

/-- A non-empty all-digits list in the given radix. -/
def readRadix (radix : Nat) (l : List Char) : Option Nat :=
  match l with
  | [] => none
  | _ => readRadixAux radix 0 l

/-- The signed decimal / `Infinity` arm of `Number(string)`: the whole
remaining input must be consumed. -/
def jsNumberDec (l : List Char) : JSNum :=
  let sp : Bool × List Char :=
    match l with
    | '-' :: t => (true, t)
    | '+' :: t => (false, t)
    | t => (false, t)
  if sp.2 = infinityChars then (if sp.1 then .negInf else .inf)
  else
    match readDecimalLiteral sp.2 with
    | some (d, []) => .num (if sp.1 then ⟨-d.num, d.exp⟩ else d)
    | _ => .nan

/-- JavaScript `Number(string)` (ECMA-262 StringToNumber): trim
whitespace; empty is 0; an unsigned hex / octal / binary literal, or a
signed decimal literal or `Infinity`, must span the whole remainder. -/
def jsNumber (s : String) : JSNum :=
  match trimWs s.toList with
  | [] => .num ⟨0, 0⟩
  | '0' :: 'x' :: cs => (match readRadix 16 cs with | some n => .num ⟨n, 0⟩ | none => .nan)
  | '0' :: 'X' :: cs => (match readRadix 16 cs with | some n => .num ⟨n, 0⟩ | none => .nan)
  | '0' :: 'o' :: cs => (match readRadix 8 cs with | some n => .num ⟨n, 0⟩ | none => .nan)
  | '0' :: 'O' :: cs => (match readRadix 8 cs with | some n => .num ⟨n, 0⟩ | none => .nan)
  | '0' :: 'b' :: cs => (match readRadix 2 cs with | some n => .num ⟨n, 0⟩ | none => .nan)
  | '0' :: 'B' :: cs => (match readRadix 2 cs with | some n => .num ⟨n, 0⟩ | none => .nan)
  | l => jsNumberDec l

/-! ### InvestmentCoordinator: `handleInvestmentSubmit` -/

/-- The two validated fields of the JSON body POSTed to `/invest`
(`strategy_id` and `amount`; the body also carries the session's
address). -/
structure InvestPayload where
  strategyId : JSNum
  amount : JSNum
deriving DecidableEq, Repr

/-- `handleInvestmentSubmit` (script.js lines 1204-1314) reduced to its
validation and the payload it sends: `some payload` when the
`fetch(API_BASE_URL/invest)` call is issued with that payload, `none`
when the submission is rejected before any network call.  The source
checks, in order: `!strategyId` (empty string); `!amount ||
isNaN(parseFloat(amount)) || parseFloat(amount) <= 0`; then computes
`Number(strategyId)` and `Math.floor(parseFloat(amount))` and throws —
before the fetch — when `isNaN(strategyIdNum) || strategyIdNum <= 0`
or `isNaN(amountNum) || amountNum <= 0`. -/
def handleInvestmentSubmit (strategyId rawAmount : String) : Option InvestPayload :=
  if strategyId = "" then none
  else if rawAmount = "" then none
  else
    let a := jsParseFloat rawAmount
    if a.isNaN then none
    else if a.leZero then none
    else
      let strategyIdNum := jsNumber strategyId
      let amountNum := a.floor
      if strategyIdNum.isNaN then none
      else if strategyIdNum.leZero then none
      else if amountNum.isNaN then none
      else if amountNum.leZero then none
      else some { strategyId := strategyIdNum, amount := amountNum }

/-! ### Theorems -/

/-- C1: in a deposit invocation whose on-chain transaction succeeds and
whose off-chain ledger sync then fails (here: a generic HTTP error, no
"not found"), the operation does NOT terminate in the Warning state:
the catch emits the warning but the unconditional success update of
script.js line 537 follows it, so the terminal user-visible status is
Success and the function returns true — contradicting the claim, the
spec, and the source's own comment that the failure should be surfaced
as a warning. -/
theorem c1_offchain_failure_terminal_status :
    (depositUsdc 50000000
      { allowance := 50000000, approveSubmitOk := true, approveMineOk := true,
        approveErrMsg := "", depositSubmitOk := true, depositMineOk := true,
        depositErrMsg := "", ledgerDeposit1 := .httpError "internal error",
        createAccount := .ok, ledgerDeposit2 := .ok }).statuses.getLast?
      = some ("USDC deposited successfully!", Status.success)
    ∧ (fheWarningMsg, Status.warning) ∈
      (depositUsdc 50000000
        { allowance := 50000000, approveSubmitOk := true, approveMineOk := true,
          approveErrMsg := "", depositSubmitOk := true, depositMineOk := true,
          depositErrMsg := "", ledgerDeposit1 := .httpError "internal error",
          createAccount := .ok, ledgerDeposit2 := .ok }).statuses
    ∧ (depositUsdc 50000000
        { allowance := 50000000, approveSubmitOk := true, approveMineOk := true,
          approveErrMsg := "", depositSubmitOk := true, depositMineOk := true,
          depositErrMsg := "", ledgerDeposit1 := .httpError "internal error",
          createAccount := .ok, ledgerDeposit2 := .ok }).returnedTrue = true := by
  decide

/-- C4 counterexample: wallet on chain 1, switch rejected with code 4902,
chain-add accepted — the guard returns true after exactly ONE switch
request, i.e. it never retries the switch after the add. -/
theorem c4_counterexample_no_switch_retry :
    checkAndSwitchNetwork
      { hasProvider := true, chainIdReadOk := true, currentChainId := 1,
        switchOutcome := .unknownChain, addOutcome := .ok }
    = { ok := true, switchRequests := 1, addRequests := [hyperliquidNetwork] } := by
  decide

/-- C4 (amended): on the wrong chain the guard issues at most one switch
request; when the wallet reports the chain unknown it requests a
chain-add carrying the full `HYPERLIQUID_NETWORK` parameters and then
returns true or false according to the add's outcome, WITHOUT retrying
the switch; it returns false when the user declines either request or
when no wallet provider is present. -/
theorem c4_network_guard_behaviour (env : NetworkEnv) :
    (checkAndSwitchNetwork env).switchRequests ≤ 1
    ∧ (env.hasProvider = false →
        checkAndSwitchNetwork env = { ok := false, switchRequests := 0, addRequests := [] })
    ∧ (∀ p ∈ (checkAndSwitchNetwork env).addRequests, p = hyperliquidNetwork)
    ∧ (env.hasProvider = true → env.chainIdReadOk = true →
        env.currentChainId ≠ hyperliquidNetwork.chainId →
        ((env.switchOutcome = .otherError → (checkAndSwitchNetwork env).ok = false)
         ∧ (env.switchOutcome = .unknownChain →
             (checkAndSwitchNetwork env).addRequests = [hyperliquidNetwork]
             ∧ ((checkAndSwitchNetwork env).ok = true ↔ env.addOutcome = .ok)))) := by
  rcases env with ⟨hp, cr, cid, so, ao⟩
  by_cases hcid : cid = hyperliquidNetwork.chainId <;>
    cases hp <;> cases cr <;> cases so <;> cases ao <;>
      simp_all [checkAndSwitchNetwork]

/-- C4 witness: the amended theorem applied at the counterexample
environment. -/
theorem c4_network_guard_behaviour_witness :
    (checkAndSwitchNetwork
      { hasProvider := true, chainIdReadOk := true, currentChainId := 1,
        switchOutcome := .unknownChain, addOutcome := .ok }).addRequests
    = [hyperliquidNetwork] :=
  (((c4_network_guard_behaviour
      { hasProvider := true, chainIdReadOk := true, currentChainId := 1,
        switchOutcome := .unknownChain, addOutcome := .ok }).2.2.2
    rfl rfl (by decide)).2 rfl).1

/-- C2 counterexample: with an allowance of exactly 1 USDC (1000000
base units) a deposit of 5 USDC (5000000 base units) passes the
allowance check, no approval is issued, and the on-chain deposit
transaction IS submitted although the allowance is below the deposited
amount (on chain it then reverts, here modelled by the mining step
failing). -/
theorem c2_counterexample_deposit_below_amount :
    (depositUsdc 5000000
      { allowance := 1000000, approveSubmitOk := true, approveMineOk := true,
        approveErrMsg := "", depositSubmitOk := true, depositMineOk := false,
        depositErrMsg := "execution reverted", ledgerDeposit1 := .ok,
        createAccount := .ok, ledgerDeposit2 := .ok }).depositTxCount = 1
    ∧ (depositUsdc 5000000
        { allowance := 1000000, approveSubmitOk := true, approveMineOk := true,
          approveErrMsg := "", depositSubmitOk := true, depositMineOk := false,
          depositErrMsg := "execution reverted", ledgerDeposit1 := .ok,
          createAccount := .ok, ledgerDeposit2 := .ok }).depositAmountWei = some 5000000
    ∧ (depositUsdc 5000000
        { allowance := 1000000, approveSubmitOk := true, approveMineOk := true,
          approveErrMsg := "", depositSubmitOk := true, depositMineOk := false,
          depositErrMsg := "execution reverted", ledgerDeposit1 := .ok,
          createAccount := .ok, ledgerDeposit2 := .ok }).allowanceAtDeposit = some 1000000
    ∧ ¬ (5000000 ≤ 1000000) := by
  decide

/-- C2 (amended): the deposit transaction is submitted only when the
allowance at submission time is at least the fixed minimum of 1 USDC
(`minAllowance` base units) — either because the pre-check passed or
because a successful approval raised it to `approveCeiling` — not
necessarily at least the deposited amount. -/
theorem c2_deposit_requires_min_allowance (amountWei : Nat) (env : DepositEnv)
    (al : Nat) (h : (depositUsdc amountWei env).allowanceAtDeposit = some al) :
    minAllowance ≤ al := by
  unfold depositUsdc at h
  by_cases hc : checkUsdcAllowance env.allowance = true
  · rw [if_pos hc] at h
    unfold checkUsdcAllowance at hc
    unfold depositPhase at h
    split at h <;> (try split at h) <;> simp_all
  · rw [if_neg hc] at h
    split at h
    · simp_all
    · split at h
      · simp_all
      · unfold depositPhase at h
        have hceil : minAllowance ≤ approveCeiling := by decide
        split at h <;> (try split at h) <;> simp_all

/-- C2 witness: the amended theorem applied at the counterexample run,
whose deposit transaction goes out at an allowance of exactly
`minAllowance`. -/
theorem c2_deposit_requires_min_allowance_witness :
    minAllowance ≤ 1000000 :=
  c2_deposit_requires_min_allowance 5000000
    { allowance := 1000000, approveSubmitOk := true, approveMineOk := true,
      approveErrMsg := "", depositSubmitOk := true, depositMineOk := false,
      depositErrMsg := "execution reverted", ledgerDeposit1 := .ok,
      createAccount := .ok, ledgerDeposit2 := .ok } 1000000 (by decide)

/-- C3 counterexample: depositing 0.5 USDC (500000 base units) with an
allowance of exactly 0.5 USDC — the allowance covers the amount, yet
`checkUsdcAllowance` (which compares against the fixed 1 USDC
threshold) returns false and an approval transaction IS issued. -/
theorem c3_counterexample_approval_despite_allowance :
    (500000 ≤ 500000)
    ∧ (depositUsdc 500000
        { allowance := 500000, approveSubmitOk := true, approveMineOk := true,
          approveErrMsg := "", depositSubmitOk := true, depositMineOk := true,
          depositErrMsg := "", ledgerDeposit1 := .ok,
          createAccount := .ok, ledgerDeposit2 := .ok }).approveTxCount = 1 := by
  decide

/-- C3 (amended): for every positive amount, when the allowance covers
both the amount and the fixed 1 USDC minimum threshold, no approval
transaction is issued during the deposit invocation. -/
theorem c3_no_approval_when_threshold_met (amountWei : Nat) (env : DepositEnv)
    (hpos : 0 < amountWei) (hamt : amountWei ≤ env.allowance)
    (hmin : minAllowance ≤ env.allowance) :
    (depositUsdc amountWei env).approveTxCount = 0 := by
  have hc : checkUsdcAllowance env.allowance = true := by
    simpa [checkUsdcAllowance] using hmin
  unfold depositUsdc
  rw [if_pos hc]
  unfold depositPhase
  split <;> (try split) <;> rfl

/-- C3 witness: a 2 USDC deposit against a 2 USDC allowance issues no
approval. -/
theorem c3_no_approval_when_threshold_met_witness :
    (depositUsdc 2000000
      { allowance := 2000000, approveSubmitOk := true, approveMineOk := true,
        approveErrMsg := "", depositSubmitOk := true, depositMineOk := true,
        depositErrMsg := "", ledgerDeposit1 := .ok,
        createAccount := .ok, ledgerDeposit2 := .ok }).approveTxCount = 0 :=
  c3_no_approval_when_threshold_met 2000000
    { allowance := 2000000, approveSubmitOk := true, approveMineOk := true,
      approveErrMsg := "", depositSubmitOk := true, depositMineOk := true,
      depositErrMsg := "", ledgerDeposit1 := .ok,
      createAccount := .ok, ledgerDeposit2 := .ok }
    (by decide) (by decide) (by decide)

/-- C6 counterexample: the ledger deposit fails with "not found" and the
`create_account` call then fails — exactly one `create_account` request
is issued but the deposit call is NOT retried (one `/deposit` post in
total), so the claimed "exactly one createAccount call followed by
exactly one retried deposit call" does not hold of this invocation. -/
theorem c6_counterexample_no_retry_after_failed_create :
    notFoundOutcome (.httpError "Account not found") = true
    ∧ (depositUsdc 50000000
        { allowance := 50000000, approveSubmitOk := true, approveMineOk := true,
          approveErrMsg := "", depositSubmitOk := true, depositMineOk := true,
          depositErrMsg := "", ledgerDeposit1 := .httpError "Account not found",
          createAccount := .httpError "boom",
          ledgerDeposit2 := .ok }).createAccountCount = 1
    ∧ (depositUsdc 50000000
        { allowance := 50000000, approveSubmitOk := true, approveMineOk := true,
          approveErrMsg := "", depositSubmitOk := true, depositMineOk := true,
          depositErrMsg := "", ledgerDeposit1 := .httpError "Account not found",
          createAccount := .httpError "boom",
          ledgerDeposit2 := .ok }).ledgerDepositCount = 1 := by
  decide

/-- Helper: a `depositUsdc` run either never reaches the ledger-sync
phase (no ledger requests at all) or its ledger request counts are
exactly those of `ledgerSync`. -/
theorem depositUsdc_ledger_eq (amountWei : Nat) (env : DepositEnv) :
    ((depositUsdc amountWei env).ledgerDepositCount = 0
      ∧ (depositUsdc amountWei env).createAccountCount = 0)
    ∨ ((depositUsdc amountWei env).ledgerDepositCount = (ledgerSync env).1
      ∧ (depositUsdc amountWei env).createAccountCount = (ledgerSync env).2.1) := by
  unfold depositUsdc depositPhase
  repeat' split
  all_goals first
    | exact Or.inl ⟨rfl, rfl⟩
    | exact Or.inr ⟨rfl, rfl⟩

/-- C6 (amended): in every invocation that reaches the ledger deposit
call, at most one `create_account` and at most two `/deposit` posts are
ever issued; when the first `/deposit` fails with a body containing
"not found", exactly one `create_account` is issued, the `/deposit` is
retried exactly once if the `create_account` succeeded and not at all
if it failed; for any other first-`/deposit` outcome no
`create_account` and no retry occur. -/
theorem c6_bootstrap_retry_bounds (amountWei : Nat) (env : DepositEnv)
    (h : 1 ≤ (depositUsdc amountWei env).ledgerDepositCount) :
    ((depositUsdc amountWei env).createAccountCount ≤ 1
      ∧ (depositUsdc amountWei env).ledgerDepositCount ≤ 2)
    ∧ (notFoundOutcome env.ledgerDeposit1 = true →
        (depositUsdc amountWei env).createAccountCount = 1
        ∧ (depositUsdc amountWei env).ledgerDepositCount
          = (if env.createAccount.isOk then 2 else 1))
    ∧ (notFoundOutcome env.ledgerDeposit1 = false →
        (depositUsdc amountWei env).createAccountCount = 0
        ∧ (depositUsdc amountWei env).ledgerDepositCount = 1) := by
  obtain ⟨alw, as, am, aem, ds, dm, dem, l1, ca, l2⟩ := env
  rcases depositUsdc_ledger_eq amountWei ⟨alw, as, am, aem, ds, dm, dem, l1, ca, l2⟩
    with ⟨h1, h2⟩ | ⟨h1, h2⟩
  · rw [h1] at h; exact absurd h (by decide)
  · rw [h1] at h
    rw [h1, h2]
    cases l1 with
    | ok => simp [ledgerSync, notFoundOutcome]
    | networkError m => simp [ledgerSync, notFoundOutcome]
    | httpError body =>
      cases hb : containsNotFound body <;>
        cases ca <;> cases l2 <;>
          simp_all [ledgerSync, notFoundOutcome, FetchOutcome.isOk]

/-- C6 witness: the amended theorem at the happy bootstrap path (not
found, create succeeds, retry succeeds): one create, two deposits. -/
theorem c6_bootstrap_retry_bounds_witness :
    (depositUsdc 50000000
      { allowance := 50000000, approveSubmitOk := true, approveMineOk := true,
        approveErrMsg := "", depositSubmitOk := true, depositMineOk := true,
        depositErrMsg := "", ledgerDeposit1 := .httpError "Account not found",
        createAccount := .ok, ledgerDeposit2 := .ok }).createAccountCount = 1 :=
  ((c6_bootstrap_retry_bounds 50000000
    { allowance := 50000000, approveSubmitOk := true, approveMineOk := true,
      approveErrMsg := "", depositSubmitOk := true, depositMineOk := true,
      depositErrMsg := "", ledgerDeposit1 := .httpError "Account not found",
      createAccount := .ok, ledgerDeposit2 := .ok } (by decide)).2.1 (by decide)).1

/-- C5: whenever the network guard fails, `connectWallet` returns false
having issued no `eth_requestAccounts`; and whenever an
`eth_requestAccounts` is issued, the guard had already succeeded. -/
theorem c5_guard_precedes_account_request (env : ConnectEnv) :
    ((connectWallet env).networkGuard = some false →
      (connectWallet env).ok = false ∧ (connectWallet env).requestAccountsCalls = 0)
    ∧ (1 ≤ (connectWallet env).requestAccountsCalls →
        (connectWallet env).networkGuard = some true) := by
  rcases env with ⟨net, ra, gs⟩
  cases hnp : net.hasProvider <;>
    cases hok : (checkAndSwitchNetwork net).ok <;>
      cases ra <;> cases gs <;>
        simp_all [connectWallet]

/-- C5 witness: a run whose guard fails (user declines the switch)
returns false with zero account requests. -/
theorem c5_guard_precedes_account_request_witness :
    (connectWallet
      { net := { hasProvider := true, chainIdReadOk := true, currentChainId := 1,
                 switchOutcome := .otherError, addOutcome := .ok },
        requestAccountsOk := true, getSignerOk := true }).ok = false
    ∧ (connectWallet
        { net := { hasProvider := true, chainIdReadOk := true, currentChainId := 1,
                   switchOutcome := .otherError, addOutcome := .ok },
          requestAccountsOk := true, getSignerOk := true }).requestAccountsCalls = 0 :=
  (c5_guard_precedes_account_request
    { net := { hasProvider := true, chainIdReadOk := true, currentChainId := 1,
               switchOutcome := .otherError, addOutcome := .ok },
      requestAccountsOk := true, getSignerOk := true }).1 (by decide)

/-- C9: `disconnectWallet` nulls `currentAccount`, `isWalletConnected`,
`provider` and `signer`, and leaves `usdcContract`, `vaultContract` and
`isUsdcApproved` exactly as they were. -/
theorem c9_disconnect_frame (s : WalletState) :
    (disconnectWallet s).currentAccount = none
    ∧ (disconnectWallet s).isWalletConnected = false
    ∧ (disconnectWallet s).provider = none
    ∧ (disconnectWallet s).signer = none
    ∧ (disconnectWallet s).usdcContract = s.usdcContract
    ∧ (disconnectWallet s).vaultContract = s.vaultContract
    ∧ (disconnectWallet s).isUsdcApproved = s.isUsdcApproved := by
  simp [disconnectWallet, updateWalletUI]

/-- C10 counterexample: a session whose old account was approved
(`isUsdcApproved = true`) switches to a new account whose allowance is
0 — the awaited `getAccountInfo` → `updateBalances` →
`checkUsdcAllowance` chain reassigns the global `isUsdcApproved` to
false, so more than the active account address changes during the
swap. -/
theorem c10_counterexample_approval_flag_rewritten :
    (handleAccountsChanged ["0xbbb"]
      { balanceReadOk := true, allowanceReadOk := true, allowance := 0 }
      { provider := some 1, signer := some 7, currentAccount := some "0xaaa",
        isWalletConnected := true, usdcContract := some 2, vaultContract := some 3,
        isUsdcApproved := true }).isUsdcApproved = false
    ∧ (handleAccountsChanged ["0xbbb"]
        { balanceReadOk := true, allowanceReadOk := true, allowance := 0 }
        { provider := some 1, signer := some 7, currentAccount := some "0xaaa",
          isWalletConnected := true, usdcContract := some 2, vaultContract := some 3,
          isUsdcApproved := true }).currentAccount = some "0xbbb" := by
  decide

/-- C10 (amended): when the account-changed notification carries a
non-empty list whose head differs from the current account, the active
account address is swapped and the awaited refresh chain re-derives
the cached `isUsdcApproved` from the NEW account's allowance (when the
refresh completes with an initialised contract); the provider, the
signing capability and the contract bindings are not re-derived, so a
subsequent `signMessage` signs with the signer from the original
connection while reporting the new account's address. -/
theorem c10_account_swap_keeps_signer (s : WalletState) (a : String)
    (rest : List String) (env : RefreshEnv) (msg : String) (sg : Nat)
    (hsg : s.signer = some sg) (hne : some a ≠ s.currentAccount) :
    (handleAccountsChanged (a :: rest) env s).currentAccount = some a
    ∧ (handleAccountsChanged (a :: rest) env s).signer = s.signer
    ∧ (handleAccountsChanged (a :: rest) env s).provider = s.provider
    ∧ (handleAccountsChanged (a :: rest) env s).usdcContract = s.usdcContract
    ∧ (handleAccountsChanged (a :: rest) env s).vaultContract = s.vaultContract
    ∧ (s.provider ≠ none → s.usdcContract ≠ none →
        env.balanceReadOk = true → env.allowanceReadOk = true →
        (handleAccountsChanged (a :: rest) env s).isUsdcApproved
          = checkUsdcAllowance env.allowance)
    ∧ signMessage (handleAccountsChanged (a :: rest) env s) msg
      = some { message := msg, signerUsed := sg, address := some a } := by
  obtain ⟨p, sgn, ca, wc, uc, vc, ap⟩ := s
  obtain ⟨br, ar, alw⟩ := env
  simp only [handleAccountsChanged, if_pos hne]
  simp only [WalletState.signer] at hsg
  subst hsg
  cases p <;> cases uc <;> cases br <;> cases ar <;>
    simp_all [getAccountInfo, updateBalances, checkUsdcAllowanceState,
      updateWalletUI, signMessage]

/-- C10 witness: a concrete session switching from account `0xaaa` to
`0xbbb` (allowance 2 USDC read for the new account) keeps signer 7,
reports the new address, and re-derives the approval flag from the new
account's allowance. -/
theorem c10_account_swap_keeps_signer_witness :
    signMessage
      (handleAccountsChanged ["0xbbb"]
        { balanceReadOk := true, allowanceReadOk := true, allowance := 2000000 }
        { provider := some 1, signer := some 7, currentAccount := some "0xaaa",
          isWalletConnected := true, usdcContract := some 2, vaultContract := some 3,
          isUsdcApproved := false }) "hello"
      = some { message := "hello", signerUsed := 7, address := some "0xbbb" }
    ∧ (handleAccountsChanged ["0xbbb"]
        { balanceReadOk := true, allowanceReadOk := true, allowance := 2000000 }
        { provider := some 1, signer := some 7, currentAccount := some "0xaaa",
          isWalletConnected := true, usdcContract := some 2, vaultContract := some 3,
          isUsdcApproved := false }).isUsdcApproved = checkUsdcAllowance 2000000 :=
  ⟨(c10_account_swap_keeps_signer
      { provider := some 1, signer := some 7, currentAccount := some "0xaaa",
        isWalletConnected := true, usdcContract := some 2, vaultContract := some 3,
        isUsdcApproved := false } "0xbbb" []
      { balanceReadOk := true, allowanceReadOk := true, allowance := 2000000 }
      "hello" 7 rfl (by decide)).2.2.2.2.2.2,
   (c10_account_swap_keeps_signer
      { provider := some 1, signer := some 7, currentAccount := some "0xaaa",
        isWalletConnected := true, usdcContract := some 2, vaultContract := some 3,
        isUsdcApproved := false } "0xbbb" []
      { balanceReadOk := true, allowanceReadOk := true, allowance := 2000000 }
      "hello" 7 rfl (by decide)).2.2.2.2.2.1
     (by decide) (by decide) rfl rfl⟩

/-- C7 counterexample: the raw amount `"Infinity"` parses (by
`parseFloat`) to a value that is NOT a finite number strictly greater
than zero, yet the submission is not rejected: the `/invest` network
call is issued, with `Math.floor(Infinity) = Infinity` as the amount.
The validation only tests `isNaN` and `<= 0`, never finiteness. -/
theorem c7_counterexample_infinite_amount :
    (jsParseFloat "Infinity").isFinite = false
    ∧ handleInvestmentSubmit "2" "Infinity"
      = some { strategyId := JSNum.num ⟨2, 0⟩, amount := JSNum.inf } := by
  decide

/-- C7 (amended): whenever the `/invest` call is issued its amount is
exactly `Math.floor(parseFloat(rawAmount))` (input "10.7" submits 10);
a raw amount parsing to NaN, or to a value `<= 0`, or whose floor is
`<= 0`, is rejected before any network call; but finiteness is not
checked, so a raw amount parsing to positive Infinity is submitted. -/
theorem c7_floor_and_rejection (sid raw : String) :
    (∀ p, handleInvestmentSubmit sid raw = some p → p.amount = (jsParseFloat raw).floor)
    ∧ ((jsParseFloat raw).isNaN = true → handleInvestmentSubmit sid raw = none)
    ∧ ((jsParseFloat raw).leZero = true → handleInvestmentSubmit sid raw = none)
    ∧ ((jsParseFloat raw).floor.leZero = true → handleInvestmentSubmit sid raw = none)
    ∧ handleInvestmentSubmit "2" "10.7"
      = some { strategyId := JSNum.num ⟨2, 0⟩, amount := JSNum.num ⟨10, 0⟩ }
    ∧ Decimal.toRat ⟨10, 0⟩ = 10 := by
  refine ⟨?_, ?_, ?_, ?_, by decide, by norm_num [Decimal.toRat]⟩
  · intro p hp
    unfold handleInvestmentSubmit at hp
    repeat' split at hp
    all_goals simp_all
    obtain ⟨-, -, -, -, -, -, hq⟩ := hp
    subst hq
    rfl
  · intro h
    simp [handleInvestmentSubmit, h]
  · intro h
    simp [handleInvestmentSubmit, h]
  · intro h
    simp [handleInvestmentSubmit, h]

/-- C7 witness: the raw amount "0" parses to a value `<= 0` and the
submission is rejected with no network call. -/
theorem c7_floor_and_rejection_witness :
    (jsParseFloat "0").leZero = true ∧ handleInvestmentSubmit "7" "0" = none :=
  ⟨by decide, (c7_floor_and_rejection "7" "0").2.2.1 (by decide)⟩

/-- C8 counterexample: the strategy id `"2.5"` does not parse to a
positive integer (Number("2.5") is the non-integer 5/2), yet the
submission is not rejected: the `/invest` call is issued with
`strategy_id` 5/2.  The validation tests `isNaN` and `<= 0` but never
integrality. -/
theorem c8_counterexample_fractional_strategy_id :
    handleInvestmentSubmit "2.5" "5"
      = some { strategyId := JSNum.num ⟨25, 1⟩, amount := JSNum.num ⟨5, 0⟩ }
    ∧ Decimal.toRat ⟨25, 1⟩ = 5 / 2
    ∧ ¬ ∃ n : ℤ, Decimal.toRat ⟨25, 1⟩ = (n : ℚ) := by
  refine ⟨by decide, by norm_num [Decimal.toRat], ?_⟩
  rintro ⟨n, hn⟩
  rw [Decimal.toRat] at hn
  norm_num at hn
  have h : (5 : ℚ) = (n : ℚ) * 2 := by linarith
  have h2 : (5 : ℤ) = n * 2 := by exact_mod_cast h
  omega

/-- C8 (amended): a strategy id that is empty, or that `Number(·)`
parses to NaN or to a value `<= 0`, is rejected before any network
call; whenever the `/invest` call is issued, its `strategy_id` is
`Number(strategyId)`, known only to be a positive number — integrality
is not validated. -/
theorem c8_strategy_id_validation (sid raw : String) :
    (sid = "" → handleInvestmentSubmit sid raw = none)
    ∧ ((jsNumber sid).isNaN = true → handleInvestmentSubmit sid raw = none)
    ∧ ((jsNumber sid).leZero = true → handleInvestmentSubmit sid raw = none)
    ∧ (∀ p, handleInvestmentSubmit sid raw = some p →
        p.strategyId = jsNumber sid
        ∧ (jsNumber sid).isNaN = false ∧ (jsNumber sid).leZero = false) := by
  refine ⟨?_, ?_, ?_, ?_⟩
  · intro h
    simp [handleInvestmentSubmit, h]
  · intro h
    simp [handleInvestmentSubmit, h]
  · intro h
    simp [handleInvestmentSubmit, h]
  · intro p hp
    unfold handleInvestmentSubmit at hp
    repeat' split at hp
    all_goals simp_all
    obtain ⟨-, -, -, -, -, -, hq⟩ := hp
    subst hq
    rfl

/-- C8 witness: the strategy id "abc" parses to NaN and the submission
is rejected with no network call. -/
theorem c8_strategy_id_validation_witness :
    (jsNumber "abc").isNaN = true ∧ handleInvestmentSubmit "abc" "5" = none :=
  ⟨by decide, (c8_strategy_id_validation "abc" "5").2.1 (by decide)⟩

end HyperHomo
